import Mathlib

/-!
Verification of the relationship-capture pipeline of this repository against its
specification.  The backend services exist in the repository as code inside the
design documents (`REFACTORING_PLAN.md`, `ARCHITECTURE_REFACTORING.md`) and the
requirements document; this file embeds those functions shallowly.  Components
whose bodies are absent from the repository (only their callers or declarations
appear) are modelled from the specification and are marked as such in their
doc comments.

Times are embedded as integers (seconds or minutes), identifiers as naturals.
-/

namespace NetworkBot

/-- Status of a canonical contact record: the `contacts.status`
enum `('active', 'sleeping', 'archived')` of the requirements document. -/
inductive ContactStatus where
  | active
  | sleeping
  | archived
deriving DecidableEq, Repr

/-- A canonical contact record.  Fields follow the `contacts` table of the
requirements document and the `Contact` model used by `ContactService`:
identifiers (phone / telegram username / email, each optional), free-form
fields, a status, and the `updated_at` timestamp used for recency. -/
structure Contact where
  id : Nat
  user_id : Nat
  name : Option String := none
  phone : Option String := none
  telegram_username : Option String := none
  email : Option String := none
  company : Option String := none
  role : Option String := none
  interests : List String := []
  commitments : List String := []
  raw_transcript : Option String := none
  status : ContactStatus := .active
  updated_at : Int := 0
deriving DecidableEq, Repr

/-- A contact fragment / update payload: the Pydantic `ContactUpdate` model of
`ContactService.update_contact` (REFACTORING_PLAN.md, `model_dump(exclude_unset=True)`).
For scalar fields the outer `Option` is "was the field set", the inner one is the
value (which may itself be null); for the list-valued free-text fields the
single `Option` is "was the field set". -/
structure ContactUpdate where
  name : Option (Option String) := none
  phone : Option (Option String) := none
  telegram_username : Option (Option String) := none
  email : Option (Option String) := none
  company : Option (Option String) := none
  role : Option (Option String) := none
  interests : Option (List String) := none
  commitments : Option (List String) := none
  raw_transcript : Option (Option String) := none
deriving DecidableEq, Repr

/-- `setattr(contact, field, value)` for a field present in
`data.model_dump(exclude_unset=True)`: a set field overwrites, an unset field
keeps the old value. -/
def setField {α : Type} (old : α) (upd : Option α) : α :=
  upd.getD old

/-- `ContactService.update_contact` (REFACTORING_PLAN.md): apply exactly the set
fields of the update to the contact — `for field, value in
data.model_dump(exclude_unset=True).items(): setattr(contact, field, value)` —
and commit, which refreshes `updated_at`. -/
def update_contact (c : Contact) (d : ContactUpdate) (now : Int) : Contact :=
  { c with
    name := setField c.name d.name
    phone := setField c.phone d.phone
    telegram_username := setField c.telegram_username d.telegram_username
    email := setField c.email d.email
    company := setField c.company d.company
    role := setField c.role d.role
    interests := setField c.interests d.interests
    commitments := setField c.commitments d.commitments
    raw_transcript := setField c.raw_transcript d.raw_transcript
    updated_at := now }

/-- `ContactService.create_contact` (REFACTORING_PLAN.md):
`Contact(user_id=user_id, **data.model_dump(exclude_unset=True))` — a fresh
record whose set fields come from the payload and whose unset fields keep the
model defaults. -/
def create_contact (user_id next_id : Nat) (d : ContactUpdate) (now : Int) : Contact :=
  update_contact { id := next_id, user_id := user_id } d now

/-- Does a sought identifier value match a stored one?  Matching requires the
identifier to be present on both sides and equal. -/
def identifierMatch (sought stored : Option String) : Bool :=
  match sought, stored with
  | some a, some b => a == b
  | _, _ => false

/-- Recency order on contacts: most recently updated first. -/
def moreRecent (a b : Contact) : Prop :=
  b.updated_at ≤ a.updated_at

instance : DecidableRel moreRecent := fun a b =>
  inferInstanceAs (Decidable (b.updated_at ≤ a.updated_at))

instance : IsTotal Contact moreRecent :=
  ⟨fun a b => le_total b.updated_at a.updated_at⟩

instance : IsTrans Contact moreRecent :=
  ⟨fun _ _ _ h1 h2 => le_trans h2 h1⟩

/-- Modelled from the spec: `DuplicateResolver.find` / `ContactService.find_by_identifiers`.
The function is called by `ContactMergeService.merge_or_create_contact` but its body is
not in the repository; per the spec it returns the records of the actor matching by
OR across phone, handle (telegram username), email — not AND — ordered by recency. -/
def find_by_identifiers (contacts : List Contact) (user_id : Nat)
    (phone telegram_username email : Option String) : List Contact :=
  List.insertionSort moreRecent
    (contacts.filter (fun c =>
      c.user_id == user_id &&
        (identifierMatch phone c.phone ||
         identifierMatch telegram_username c.telegram_username ||
         identifierMatch email c.email)))

/-- Result of `ContactMergeService.merge_or_create_contact`:
the `tuple[Contact, bool]` of contact and `was_merged` flag. -/
structure MergeOutcome where
  contact : Contact
  was_merged : Bool
deriving DecidableEq, Repr

/-- The persistent contact table together with the id allocator. -/
structure ContactStore where
  contacts : List Contact
  next_id : Nat
deriving DecidableEq, Repr

/-- `ContactMergeService.MERGE_TIMEOUT_SECONDS = 300` (5 minutes), also
`CONTACT_MERGE_TIMEOUT_SECONDS = 300` in `app/config/constants.py`. -/
def MERGE_TIMEOUT_SECONDS : Int := 300

/-- The no-active-session tail of `merge_or_create_contact`: look for duplicates
by identifiers; a non-empty find is returned to the caller unchanged
(`return existing, False` — ask the user about merging); an empty find creates
a new contact. -/
def duplicate_or_create (store : ContactStore) (user_id : Nat)
    (contact_data : ContactUpdate) (now : Int) : MergeOutcome × ContactStore :=
  match find_by_identifiers store.contacts user_id
      contact_data.phone.join contact_data.telegram_username.join contact_data.email.join with
  | c :: _ => (⟨c, false⟩, store)
  | [] =>
    let c := create_contact user_id store.next_id contact_data now
    (⟨c, false⟩, ⟨store.contacts ++ [c], store.next_id + 1⟩)

/-- `ContactMergeService.merge_or_create_contact` (REFACTORING_PLAN.md).  If an
active contact id and time are given (Python truthiness: a zero time is falsy)
and `now - active_contact_time < MERGE_TIMEOUT_SECONDS`, the fragment is merged
into the active contact via `update_contact` and `(contact, True)` is returned;
otherwise duplicates are consulted and the result is `(contact, False)`. -/
def merge_or_create_contact (store : ContactStore) (user_id : Nat)
    (contact_data : ContactUpdate) (active_contact_id : Option Nat)
    (active_contact_time : Option Int) (now : Int) :
    Except String (MergeOutcome × ContactStore) :=
  match active_contact_id, active_contact_time with
  | some aid, some atime =>
    if atime ≠ 0 ∧ now - atime < MERGE_TIMEOUT_SECONDS then
      match store.contacts.find? (fun c => c.id == aid) with
      | some c =>
        let c2 := update_contact c contact_data now
        .ok (⟨c2, true⟩,
          ⟨store.contacts.map (fun x => if x.id == aid then c2 else x), store.next_id⟩)
      | none => .error "Contact not found"
    else .ok (duplicate_or_create store user_id contact_data now)
  | _, _ => .ok (duplicate_or_create store user_id contact_data now)

/-- The per-actor capture session: `last_contact_id` / `last_contact_time`
held in `context.user_data` (or the `UserSession` row). -/
structure CaptureSession where
  last_contact_id : Option Nat := none
  last_contact_time : Option Int := none
deriving DecidableEq, Repr

/-- The handler flow around the merge service (REFACTORING_PLAN.md): call
`merge_or_create_contact` with the stored session, then unconditionally refresh
the session to the resulting contact id and the current time
(`update_session(last_contact_id=contact.id, last_contact_time=now)`),
which gives the capture window its sliding expiry. -/
def handle_fragment (store : ContactStore) (sess : CaptureSession) (user_id : Nat)
    (contact_data : ContactUpdate) (now : Int) :
    Except String (MergeOutcome × ContactStore × CaptureSession) :=
  match merge_or_create_contact store user_id contact_data
      sess.last_contact_id sess.last_contact_time now with
  | .error e => .error e
  | .ok (r, store2) => .ok (r, store2, ⟨some r.contact.id, some now⟩)

/-- The duplicate-or-create tail never reports a merge: both the attach-to-found
branch and the create branch return `was_merged = false`. -/
theorem duplicate_or_create_not_merged (store : ContactStore) (user_id : Nat)
    (d : ContactUpdate) (now : Int) :
    (duplicate_or_create store user_id d now).1.was_merged = false := by
  unfold duplicate_or_create
  rcases hfind : find_by_identifiers store.contacts user_id
      d.phone.join d.telegram_username.join d.email.join with _ | ⟨c, cs⟩ <;>
    rfl

/-- C1: for an actor with an open capture session, `accept` merges the fragment into
the session's record exactly when `now - session.updatedAt < MERGE_WINDOW` (300 s),
refreshing the session time to `now` (sliding expiry); once the elapsed time reaches
the window the fragment is never merged — the duplicate check or a fresh record (and
a fresh session) takes over instead. -/
theorem capture_merge_window_boundary
    (store : ContactStore) (sess : CaptureSession) (user_id aid : Nat)
    (d : ContactUpdate) (t now : Int) (c : Contact)
    (hid : sess.last_contact_id = some aid)
    (htime : sess.last_contact_time = some t)
    (hpos : 0 < t)
    (hfind : store.contacts.find? (fun x => x.id == aid) = some c) :
    (now - t < MERGE_TIMEOUT_SECONDS →
      handle_fragment store sess user_id d now =
        .ok (⟨update_contact c d now, true⟩,
          ⟨store.contacts.map (fun x => if x.id == aid then update_contact c d now else x),
            store.next_id⟩,
          ⟨some (update_contact c d now).id, some now⟩)) ∧
    (MERGE_TIMEOUT_SECONDS ≤ now - t →
      handle_fragment store sess user_id d now =
        .ok ((duplicate_or_create store user_id d now).1,
          (duplicate_or_create store user_id d now).2,
          ⟨some (duplicate_or_create store user_id d now).1.contact.id, some now⟩) ∧
      (duplicate_or_create store user_id d now).1.was_merged = false) := by
  constructor
  · intro hlt
    have hcond : t ≠ 0 ∧ now - t < MERGE_TIMEOUT_SECONDS := ⟨by omega, hlt⟩
    simp [handle_fragment, merge_or_create_contact, hid, htime, hcond, hfind]
  · intro hge
    have hcond : ¬ (t ≠ 0 ∧ now - t < MERGE_TIMEOUT_SECONDS) := fun h =>
      absurd h.2 (not_lt.mpr hge)
    rcases hdup : duplicate_or_create store user_id d now with ⟨r, store2⟩
    have hnm := duplicate_or_create_not_merged store user_id d now
    rw [hdup] at hnm
    refine ⟨?_, by simpa [hdup] using hnm⟩
    simp [handle_fragment, merge_or_create_contact, hid, htime, hcond, hdup]

/-- Concrete run of `capture_merge_window_boundary`: a fragment arriving 100 s after
the session update merges; the same setup with the fragment 400 s late does not. -/
theorem capture_merge_window_boundary_witness :
    (handle_fragment ⟨[{ id := 7, user_id := 1, name := some "Jane", updated_at := 100 }], 8⟩
        ⟨some 7, some 100⟩ 1 { phone := some (some "+1555") } 200 =
      .ok (⟨update_contact { id := 7, user_id := 1, name := some "Jane", updated_at := 100 }
              { phone := some (some "+1555") } 200, true⟩,
        ⟨[update_contact { id := 7, user_id := 1, name := some "Jane", updated_at := 100 }
              { phone := some (some "+1555") } 200], 8⟩,
        ⟨some 7, some 200⟩)) ∧
    (handle_fragment ⟨[{ id := 7, user_id := 1, name := some "Jane", updated_at := 100 }], 8⟩
        ⟨some 7, some 100⟩ 1 { phone := some (some "+1555") } 500 =
      .ok (⟨create_contact 1 8 { phone := some (some "+1555") } 500, false⟩,
        ⟨[{ id := 7, user_id := 1, name := some "Jane", updated_at := 100 },
          create_contact 1 8 { phone := some (some "+1555") } 500], 9⟩,
        ⟨some 8, some 500⟩)) := by
  constructor
  · have h := (capture_merge_window_boundary
      ⟨[{ id := 7, user_id := 1, name := some "Jane", updated_at := 100 }], 8⟩
      ⟨some 7, some 100⟩ 1 7 { phone := some (some "+1555") } 100 200
      { id := 7, user_id := 1, name := some "Jane", updated_at := 100 }
      rfl rfl (by decide) (by decide)).1 (by decide)
    simpa using h
  · have h := (capture_merge_window_boundary
      ⟨[{ id := 7, user_id := 1, name := some "Jane", updated_at := 100 }], 8⟩
      ⟨some 7, some 100⟩ 1 7 { phone := some (some "+1555") } 100 500
      { id := 7, user_id := 1, name := some "Jane", updated_at := 100 }
      rfl rfl (by decide) (by decide)).2 (by decide)
    have h2 := h.1
    rw [show duplicate_or_create
        ⟨[{ id := 7, user_id := 1, name := some "Jane", updated_at := 100 }], 8⟩ 1
        { phone := some (some "+1555") } 500 =
        (⟨create_contact 1 8 { phone := some (some "+1555") } 500, false⟩,
          ⟨[{ id := 7, user_id := 1, name := some "Jane", updated_at := 100 },
            create_contact 1 8 { phone := some (some "+1555") } 500], 9⟩) from by decide] at h2
    exact h2

/-- C2: for fragments `f1` then `f2` from the same actor within MERGE_WINDOW, the
first fragment creates the record and opens the session, the second merges into it,
and the merged record has `f2`'s identity-source fields (name, phone) whenever `f2`
sets them, retains `f1`'s free-text-only fields (interests, commitments) when they
are absent from `f2`, and gives the later write the win when both fragments set a
field. -/
theorem merge_field_priority (u : Nat) (f1 f2 : ContactUpdate) (t1 t2 : Int)
    (h1 : 0 < t1) (h3 : t2 - t1 < MERGE_TIMEOUT_SECONDS) :
    handle_fragment ⟨[], 0⟩ ⟨none, none⟩ u f1 t1 =
      .ok (⟨create_contact u 0 f1 t1, false⟩, ⟨[create_contact u 0 f1 t1], 1⟩,
        ⟨some 0, some t1⟩) ∧
    handle_fragment ⟨[create_contact u 0 f1 t1], 1⟩ ⟨some 0, some t1⟩ u f2 t2 =
      .ok (⟨update_contact (create_contact u 0 f1 t1) f2 t2, true⟩,
        ⟨[update_contact (create_contact u 0 f1 t1) f2 t2], 1⟩, ⟨some 0, some t2⟩) ∧
    (∀ v, f2.name = some v → (update_contact (create_contact u 0 f1 t1) f2 t2).name = v) ∧
    (∀ v, f2.phone = some v → (update_contact (create_contact u 0 f1 t1) f2 t2).phone = v) ∧
    (f2.interests = none →
      (update_contact (create_contact u 0 f1 t1) f2 t2).interests =
        (create_contact u 0 f1 t1).interests) ∧
    (f2.commitments = none →
      (update_contact (create_contact u 0 f1 t1) f2 t2).commitments =
        (create_contact u 0 f1 t1).commitments) ∧
    (∀ l, f2.interests = some l →
      (update_contact (create_contact u 0 f1 t1) f2 t2).interests = l) := by
  have hcond : t1 ≠ 0 ∧ t2 - t1 < MERGE_TIMEOUT_SECONDS := ⟨by omega, h3⟩
  refine ⟨?_, ?_, ?_, ?_, ?_, ?_, ?_⟩
  · simp [handle_fragment, merge_or_create_contact, duplicate_or_create,
      find_by_identifiers, create_contact, update_contact]
  · simp [handle_fragment, merge_or_create_contact, hcond, create_contact, update_contact]
  · intro v hv; simp [update_contact, setField, hv]
  · intro v hv; simp [update_contact, setField, hv]
  · intro hv; simp [update_contact, setField, hv]
  · intro hv; simp [update_contact, setField, hv]
  · intro l hl; simp [update_contact, setField, hl]

/-- Concrete run of `merge_field_priority`, the spec scenario: fragment A with a phone
and interests, 10 s later fragment B with the same phone and the name — one record with
`name = "Jane"`, `phone = "+1555"` and A's interests retained. -/
theorem merge_field_priority_witness :
    (update_contact
        (create_contact 1 0
          { phone := some (some "+1555"), interests := some ["chess"] } 10)
        { phone := some (some "+1555"), name := some (some "Jane") } 20).name =
      some "Jane" ∧
    (update_contact
        (create_contact 1 0
          { phone := some (some "+1555"), interests := some ["chess"] } 10)
        { phone := some (some "+1555"), name := some (some "Jane") } 20).phone =
      some "+1555" ∧
    (update_contact
        (create_contact 1 0
          { phone := some (some "+1555"), interests := some ["chess"] } 10)
        { phone := some (some "+1555"), name := some (some "Jane") } 20).interests =
      ["chess"] ∧
    handle_fragment
        ⟨[create_contact 1 0
            { phone := some (some "+1555"), interests := some ["chess"] } 10], 1⟩
        ⟨some 0, some 10⟩ 1
        { phone := some (some "+1555"), name := some (some "Jane") } 20 =
      .ok (⟨update_contact
              (create_contact 1 0
                { phone := some (some "+1555"), interests := some ["chess"] } 10)
              { phone := some (some "+1555"), name := some (some "Jane") } 20, true⟩,
        ⟨[update_contact
            (create_contact 1 0
              { phone := some (some "+1555"), interests := some ["chess"] } 10)
            { phone := some (some "+1555"), name := some (some "Jane") } 20], 1⟩,
        ⟨some 0, some 20⟩) := by
  have h := merge_field_priority 1
    { phone := some (some "+1555"), interests := some ["chess"] }
    { phone := some (some "+1555"), name := some (some "Jane") }
    10 20 (by decide) (by decide)
  exact ⟨h.2.2.1 (some "Jane") rfl, h.2.2.2.1 (some "+1555") rfl,
    (h.2.2.2.2.1 rfl).trans rfl, h.2.1⟩

/-- C7: the duplicate finder returns exactly the actor's records matching at least one
of phone, handle, email (OR across identifiers, not AND), ordered by recency; an empty
result makes the caller create a new record (leaving every existing record unchanged),
and a non-empty result is returned to the caller as a merge-or-create decision — the
head of the recency-ordered matches, `was_merged = false`, and the store untouched, so
no existing record is ever auto-modified. -/
theorem find_duplicates_or_decision (store : ContactStore) (user_id : Nat)
    (d : ContactUpdate) (now : Int) :
    (∀ c, c ∈ find_by_identifiers store.contacts user_id
        d.phone.join d.telegram_username.join d.email.join ↔
      (c ∈ store.contacts ∧ c.user_id = user_id ∧
        (identifierMatch d.phone.join c.phone = true ∨
         identifierMatch d.telegram_username.join c.telegram_username = true ∨
         identifierMatch d.email.join c.email = true))) ∧
    List.Sorted moreRecent (find_by_identifiers store.contacts user_id
      d.phone.join d.telegram_username.join d.email.join) ∧
    (find_by_identifiers store.contacts user_id
        d.phone.join d.telegram_username.join d.email.join = [] →
      duplicate_or_create store user_id d now =
        (⟨create_contact user_id store.next_id d now, false⟩,
          ⟨store.contacts ++ [create_contact user_id store.next_id d now],
            store.next_id + 1⟩)) ∧
    (∀ c cs, find_by_identifiers store.contacts user_id
        d.phone.join d.telegram_username.join d.email.join = c :: cs →
      duplicate_or_create store user_id d now = (⟨c, false⟩, store)) := by
  refine ⟨?_, ?_, ?_, ?_⟩
  · intro c
    simp [find_by_identifiers, List.mem_insertionSort, List.mem_filter, and_assoc, or_assoc]
  · exact List.sorted_insertionSort moreRecent _
  · intro hnil
    unfold duplicate_or_create
    rw [hnil]
  · intro c cs hcons
    unfold duplicate_or_create
    rw [hcons]

/-- Concrete run of `find_duplicates_or_decision`: with two stored records sharing the
sought phone, the finder returns both ordered most-recent-first, and the caller gets
the most recent one back as a decision with the store unchanged; with no match the
record is freshly created. -/
theorem find_duplicates_or_decision_witness :
    find_by_identifiers
        [{ id := 1, user_id := 1, phone := some "+1555", updated_at := 50 },
         { id := 2, user_id := 1, phone := some "+1555", updated_at := 80 }] 1
        (some "+1555") none none =
      [{ id := 2, user_id := 1, phone := some "+1555", updated_at := 80 },
       { id := 1, user_id := 1, phone := some "+1555", updated_at := 50 }] ∧
    duplicate_or_create
        ⟨[{ id := 1, user_id := 1, phone := some "+1555", updated_at := 50 },
          { id := 2, user_id := 1, phone := some "+1555", updated_at := 80 }], 3⟩ 1
        { phone := some (some "+1555") } 100 =
      (⟨{ id := 2, user_id := 1, phone := some "+1555", updated_at := 80 }, false⟩,
        ⟨[{ id := 1, user_id := 1, phone := some "+1555", updated_at := 50 },
          { id := 2, user_id := 1, phone := some "+1555", updated_at := 80 }], 3⟩) ∧
    duplicate_or_create
        ⟨[{ id := 1, user_id := 1, phone := some "+1555", updated_at := 50 }], 3⟩ 1
        { phone := some (some "+9999") } 100 =
      (⟨create_contact 1 3 { phone := some (some "+9999") } 100, false⟩,
        ⟨[{ id := 1, user_id := 1, phone := some "+1555", updated_at := 50 },
          create_contact 1 3 { phone := some (some "+9999") } 100], 4⟩) := by
  have hfind : find_by_identifiers
      [{ id := 1, user_id := 1, phone := some "+1555", updated_at := 50 },
       { id := 2, user_id := 1, phone := some "+1555", updated_at := 80 }] 1
      (some "+1555") none none =
      [{ id := 2, user_id := 1, phone := some "+1555", updated_at := 80 },
       { id := 1, user_id := 1, phone := some "+1555", updated_at := 50 }] := by decide
  have h1 := (find_duplicates_or_decision
    ⟨[{ id := 1, user_id := 1, phone := some "+1555", updated_at := 50 },
      { id := 2, user_id := 1, phone := some "+1555", updated_at := 80 }], 3⟩ 1
    { phone := some (some "+1555") } 100).2.2.2
    { id := 2, user_id := 1, phone := some "+1555", updated_at := 80 }
    [{ id := 1, user_id := 1, phone := some "+1555", updated_at := 50 }] hfind
  have h2 := (find_duplicates_or_decision
    ⟨[{ id := 1, user_id := 1, phone := some "+1555", updated_at := 50 }], 3⟩ 1
    { phone := some (some "+9999") } 100).2.2.1 (by decide)
  exact ⟨hfind, h1, h2⟩

/-- One lookup-provider search result (`{url, title, snippet, source}`). -/
structure SearchResult where
  url : String
  title : String
  snippet : String
  source : String
deriving DecidableEq, Repr

/-- Outcome of one provider branch under
`asyncio.gather(..., return_exceptions=True)` (enrich_contact_final,
REFACTORING_PLAN.md 112-128): either the branch's result list or the exception
it raised — a raised exception is captured, it does not abort the siblings. -/
inductive ProviderOutcome where
  | ok (results : List SearchResult)
  | exn (msg : String)
deriving DecidableEq, Repr

/-- Is the branch a non-exception? (`not isinstance(r, Exception)`). -/
def ProviderOutcome.isOk : ProviderOutcome → Bool
  | .ok _ => true
  | .exn _ => false

/-- The aggregation loop of `enrich_contact_final`: start from `all_results = []`
and extend with each branch's results when the branch is not an exception. -/
def aggregate_results (branches : List ProviderOutcome) : List SearchResult :=
  branches.foldl (fun acc b => match b with | .ok rs => acc ++ rs | .exn _ => acc) []

/-- The concatenation of the result lists of the non-failed branches, in order. -/
def okConcat : List ProviderOutcome → List SearchResult
  | [] => []
  | .ok rs :: bs => rs ++ okConcat bs
  | .exn _ :: bs => okConcat bs

/-- Status of an aggregated enrichment run.  `degraded` is the spec's "partial"
status (that word is a Lean keyword). -/
inductive EnrichStatus where
  | success
  | degraded
  | error
deriving DecidableEq, Repr

/-- Modelled from the spec: the aggregated enrichment status — `success` when no
provider failed, the partial (`degraded`) status when at least one but not all
failed, `error` only when all failed.  The status computation is not present in
the repository; only the aggregation loop is. -/
def enrich_status (branches : List ProviderOutcome) : EnrichStatus :=
  if branches.all ProviderOutcome.isOk then .success
  else if branches.all (fun b => !b.isOk) then .error
  else .degraded

theorem aggregate_results_go (branches : List ProviderOutcome) (acc : List SearchResult) :
    branches.foldl (fun acc b => match b with | .ok rs => acc ++ rs | .exn _ => acc) acc =
      acc ++ okConcat branches := by
  induction branches generalizing acc with
  | nil => simp [okConcat]
  | cons b bs ih =>
    cases b with
    | ok rs => simp [okConcat, List.foldl_cons, ih, List.append_assoc]
    | exn m => simp [okConcat, List.foldl_cons, ih]

/-- The aggregation loop collects exactly the non-failed branches' results. -/
theorem aggregate_results_eq_okConcat (branches : List ProviderOutcome) :
    aggregate_results branches = okConcat branches := by
  simpa using aggregate_results_go branches []

theorem mem_okConcat {branches : List ProviderOutcome} {rs : List SearchResult}
    (hb : ProviderOutcome.ok rs ∈ branches) : ∀ r ∈ rs, r ∈ okConcat branches := by
  intro r hr
  induction branches with
  | nil => cases hb
  | cons b bs ih =>
    cases hb with
    | head => simp [okConcat, hr]
    | tail _ hb2 =>
      cases b with
      | ok rs2 => simp [okConcat, ih hb2]
      | exn m => simp [okConcat, ih hb2]

/-- C3: a provider failure does not abort the sibling queries — the aggregate
contains every result of every non-failed branch (and is exactly their
concatenation) — and the aggregated status is `success` when no provider failed,
partial (`degraded`) when at least one but not all failed, and `error` only when
all failed. -/
theorem enrich_best_effort_aggregation (branches : List ProviderOutcome) :
    aggregate_results branches = okConcat branches ∧
    (∀ rs, ProviderOutcome.ok rs ∈ branches →
      ∀ r ∈ rs, r ∈ aggregate_results branches) ∧
    ((∀ b ∈ branches, b.isOk = true) → enrich_status branches = .success) ∧
    ((∃ b ∈ branches, b.isOk = false) → (∃ b ∈ branches, b.isOk = true) →
      enrich_status branches = .degraded) ∧
    (enrich_status branches = .error → ∀ b ∈ branches, b.isOk = false) := by
  refine ⟨aggregate_results_eq_okConcat branches, ?_, ?_, ?_, ?_⟩
  · intro rs hb
    rw [aggregate_results_eq_okConcat]
    exact mem_okConcat hb
  · intro hall
    simp [enrich_status, List.all_eq_true.mpr hall]
  · rintro ⟨b, hb, hfail⟩ ⟨b2, hb2, hok⟩
    have h1 : ¬ branches.all ProviderOutcome.isOk = true := by
      simp [List.all_eq_true]
      exact ⟨b, hb, by simp [hfail]⟩
    have h2 : ¬ branches.all (fun b => !b.isOk) = true := by
      simp [List.all_eq_true]
      exact ⟨b2, hb2, hok⟩
    simp [enrich_status, h1, h2]
  · intro herr b hb
    by_contra hok
    have hok2 : b.isOk = true := by
      cases hbv : b.isOk
      · exact absurd hbv hok
      · rfl
    have h2 : ¬ branches.all (fun b => !b.isOk) = true := by
      simp [List.all_eq_true]
      exact ⟨b, hb, hok2⟩
    by_cases h1 : branches.all ProviderOutcome.isOk = true <;>
      simp [enrich_status, h1, h2] at herr

/-- Concrete run of `enrich_best_effort_aggregation`, the spec scenario: two providers
queried, one times out, the other returns 3 results — the partial status and all 3
results, no crash. -/
theorem enrich_best_effort_aggregation_witness :
    enrich_status
        [ProviderOutcome.exn "timeout",
         ProviderOutcome.ok
           [⟨"u1", "t1", "s1", "tavily"⟩, ⟨"u2", "t2", "s2", "tavily"⟩,
            ⟨"u3", "t3", "s3", "tavily"⟩]] = .degraded ∧
    aggregate_results
        [ProviderOutcome.exn "timeout",
         ProviderOutcome.ok
           [⟨"u1", "t1", "s1", "tavily"⟩, ⟨"u2", "t2", "s2", "tavily"⟩,
            ⟨"u3", "t3", "s3", "tavily"⟩]] =
      [⟨"u1", "t1", "s1", "tavily"⟩, ⟨"u2", "t2", "s2", "tavily"⟩,
       ⟨"u3", "t3", "s3", "tavily"⟩] := by
  have h := enrich_best_effort_aggregation
    [ProviderOutcome.exn "timeout",
     ProviderOutcome.ok
       [⟨"u1", "t1", "s1", "tavily"⟩, ⟨"u2", "t2", "s2", "tavily"⟩,
        ⟨"u3", "t3", "s3", "tavily"⟩]]
  refine ⟨h.2.2.2.1 ⟨ProviderOutcome.exn "timeout", by decide⟩
    ⟨ProviderOutcome.ok
       [⟨"u1", "t1", "s1", "tavily"⟩, ⟨"u2", "t2", "s2", "tavily"⟩,
        ⟨"u3", "t3", "s3", "tavily"⟩], by decide⟩, ?_⟩
  rw [h.1]
  decide

/-- `RATE_LIMIT_WINDOW_SECONDS = 60` (app/config/constants.py). -/
def RATE_LIMIT_WINDOW_SECONDS : Int := 60

/-- `MAX_REQUESTS_PER_MINUTE = 20` (app/config/constants.py): the general
operation class threshold N1. -/
def MAX_REQUESTS_PER_MINUTE : Nat := 20

/-- `MAX_VOICE_REQUESTS_PER_MINUTE = 5` (app/config/constants.py): the expensive
(voice) operation class threshold N2. -/
def MAX_VOICE_REQUESTS_PER_MINUTE : Nat := 5

/-- The in-memory sliding-window rate limiter
(ARCHITECTURE_REFACTORING.md 1397-1427): `max_requests` per `window_seconds`,
and per-user timestamp lists (`defaultdict(list)`, missing user = `[]`). -/
structure RateLimiter where
  max_requests : Nat
  window_seconds : Int
  requests : Nat → List Int

/-- `RateLimiter.is_allowed(user_id)`: drop the user's timestamps at or before
`now - window_seconds` (strict `req_time > window_start` keeps a stamp), write
the pruned list back, deny when its length has reached `max_requests` (the
denied request is not recorded), otherwise append `now` and admit. -/
def is_allowed (rl : RateLimiter) (user_id : Nat) (now : Int) : Bool × RateLimiter :=
  let kept := (rl.requests user_id).filter (fun t => now - rl.window_seconds < t)
  if rl.max_requests ≤ kept.length then
    (false, { rl with requests := fun v => if v = user_id then kept else rl.requests v })
  else
    (true, { rl with requests := fun v => if v = user_id then kept ++ [now] else rl.requests v })

theorem is_allowed_max (rl : RateLimiter) (u : Nat) (now : Int) :
    (is_allowed rl u now).2.max_requests = rl.max_requests := by
  unfold is_allowed; dsimp only; split <;> rfl

theorem is_allowed_window (rl : RateLimiter) (u : Nat) (now : Int) :
    (is_allowed rl u now).2.window_seconds = rl.window_seconds := by
  unfold is_allowed; dsimp only; split <;> rfl

theorem is_allowed_requests_self (rl : RateLimiter) (u : Nat) (now : Int) :
    (is_allowed rl u now).2.requests u =
      (if rl.max_requests ≤
          ((rl.requests u).filter (fun t => now - rl.window_seconds < t)).length then
        (rl.requests u).filter (fun t => now - rl.window_seconds < t)
      else
        (rl.requests u).filter (fun t => now - rl.window_seconds < t) ++ [now]) := by
  unfold is_allowed; dsimp only; split <;> simp [*]

/-- `is_allowed` for one user never touches another user's window. -/
theorem is_allowed_other_actor (rl : RateLimiter) (u v : Nat) (now : Int)
    (hne : v ≠ u) : (is_allowed rl u now).2.requests v = rl.requests v := by
  unfold is_allowed; dsimp only; split <;> simp [hne]

/-- Admission while the pruned window is below the threshold. -/
theorem is_allowed_admits (rl : RateLimiter) (u : Nat) (now : Int)
    (hroom : ((rl.requests u).filter (fun t => now - rl.window_seconds < t)).length <
      rl.max_requests) :
    (is_allowed rl u now).1 = true := by
  unfold is_allowed; dsimp only
  rw [if_neg (by omega)]

/-- Denial when the pruned window has reached the threshold. -/
theorem is_allowed_denies (rl : RateLimiter) (u : Nat) (now : Int)
    (hfull : rl.max_requests ≤
      ((rl.requests u).filter (fun t => now - rl.window_seconds < t)).length) :
    (is_allowed rl u now).1 = false := by
  unfold is_allowed; dsimp only
  rw [if_pos hfull]

/-- Process a sequence of requests of one user, one `is_allowed` call per time. -/
def runCalls (rl : RateLimiter) (user : Nat) (times : List Int) :
    List Bool × RateLimiter :=
  match times with
  | [] => ([], rl)
  | t :: ts =>
    let r1 := is_allowed rl user t
    let r2 := runCalls r1.2 user ts
    (r1.1 :: r2.1, r2.2)

/-- While every pending stamp and every new request lie inside one window and the
count stays at most `max_requests`, every request is admitted and the window
accumulates the request times in order. -/
theorem runCalls_all_fresh (user : Nat) (times : List Int) :
    ∀ rl : RateLimiter,
    (∀ a ∈ times, ∀ b ∈ times, a - rl.window_seconds < b) →
    (∀ a ∈ times, ∀ x ∈ rl.requests user, a - rl.window_seconds < x) →
    (rl.requests user).length + times.length ≤ rl.max_requests →
    (runCalls rl user times).1 = times.map (fun _ => true) ∧
    (runCalls rl user times).2.requests user = rl.requests user ++ times ∧
    (∀ v, v ≠ user → (runCalls rl user times).2.requests v = rl.requests v) ∧
    (runCalls rl user times).2.max_requests = rl.max_requests ∧
    (runCalls rl user times).2.window_seconds = rl.window_seconds := by
  induction times with
  | nil => intro rl _ _ _; simp [runCalls]
  | cons t ts ih =>
    intro rl hpair hcur hlen
    simp only [List.length_cons] at hlen
    have hfilter : (rl.requests user).filter (fun x => t - rl.window_seconds < x) =
        rl.requests user := by
      apply List.filter_eq_self.mpr
      intro x hx
      simpa using hcur t (by simp) x hx
    have hroom : ((rl.requests user).filter
        (fun x => t - rl.window_seconds < x)).length < rl.max_requests := by
      rw [hfilter]; omega
    have hb : (is_allowed rl user t).1 = true := is_allowed_admits rl user t hroom
    have hreq : (is_allowed rl user t).2.requests user = rl.requests user ++ [t] := by
      rw [is_allowed_requests_self, hfilter, if_neg (by omega)]
    have hmax := is_allowed_max rl user t
    have hwin := is_allowed_window rl user t
    have hih := ih (is_allowed rl user t).2
      (by intro a ha b hb2; rw [hwin]; exact hpair a (by simp [ha]) b (by simp [hb2]))
      (by
        intro a ha x hx
        rw [hwin]
        rw [hreq] at hx
        rcases List.mem_append.mp hx with hx1 | hx1
        · exact hcur a (by simp [ha]) x hx1
        · have : x = t := by simpa using hx1
          subst this
          exact hpair a (by simp [ha]) x (by simp))
      (by rw [hreq, hmax]; simp only [List.length_append, List.length_singleton]; omega)
    refine ⟨?_, ?_, ?_, ?_, ?_⟩
    · simp only [runCalls, hb, hih.1, List.map_cons]
    · simp only [runCalls, hih.2.1, hreq, List.append_assoc, List.singleton_append]
    · intro v hv
      simp only [runCalls, hih.2.2.1 v hv, is_allowed_other_actor rl user v t hv]
    · simp only [runCalls, hih.2.2.2.1, hmax]
    · simp only [runCalls, hih.2.2.2.2, hwin]

/-- The two admission classes: general operations and expensive (voice) operations. -/
inductive OperationClass where
  | general
  | expensive
deriving DecidableEq, Repr

/-- Modelled from the spec: the admission controller keeps two independent
sliding-window limiter instances, the general class with threshold
`MAX_REQUESTS_PER_MINUTE` and the expensive (voice) class with
`MAX_VOICE_REQUESTS_PER_MINUTE`, both over `RATE_LIMIT_WINDOW_SECONDS`.  The
repository wires only one global `RateLimiter` instance; the two per-class
thresholds exist as constants in `app/config/constants.py`. -/
structure AdmissionController where
  general : RateLimiter
  voice : RateLimiter

/-- `allow(actorId, operationClass)`: route the check to the limiter instance of
the class; the other class's instance is untouched. -/
def AdmissionController.allow (ac : AdmissionController) (actor : Nat)
    (opClass : OperationClass) (now : Int) : Bool × AdmissionController :=
  match opClass with
  | .general =>
    let r := is_allowed ac.general actor now
    (r.1, { ac with general := r.2 })
  | .expensive =>
    let r := is_allowed ac.voice actor now
    (r.1, { ac with voice := r.2 })

/-- C6: for one actor on the expensive class (threshold N2 = 5 over the 60 s sliding
window), each of the first N2 requests inside one window is admitted, the (N2+1)-th
request inside the same window is denied, and a request made once the window has
elapsed past every recorded stamp is admitted again; other actors' windows are
untouched, the two classes live in independent limiter instances, and N2 < N1. -/
theorem rate_limiter_sliding_window (u : Nat) (ts : List Int) (t2 t3 : Int)
    (rl0 : RateLimiter)
    (hmax : rl0.max_requests = MAX_VOICE_REQUESTS_PER_MINUTE)
    (hwin : rl0.window_seconds = RATE_LIMIT_WINDOW_SECONDS)
    (hempty : rl0.requests u = [])
    (hlen : ts.length = MAX_VOICE_REQUESTS_PER_MINUTE)
    (hpair : ∀ a ∈ ts, ∀ b ∈ ts, a - RATE_LIMIT_WINDOW_SECONDS < b)
    (hfresh2 : ∀ x ∈ ts, t2 - RATE_LIMIT_WINDOW_SECONDS < x)
    (hafter : ∀ x ∈ ts, x ≤ t3 - RATE_LIMIT_WINDOW_SECONDS) :
    (runCalls rl0 u ts).1 = ts.map (fun _ => true) ∧
    (is_allowed (runCalls rl0 u ts).2 u t2).1 = false ∧
    (is_allowed (is_allowed (runCalls rl0 u ts).2 u t2).2 u t3).1 = true ∧
    (∀ v, v ≠ u → (runCalls rl0 u ts).2.requests v = rl0.requests v) ∧
    (∀ ac : AdmissionController, ∀ now : Int,
      (ac.allow u .expensive now).2.general = ac.general ∧
      (ac.allow u .general now).2.voice = ac.voice) ∧
    MAX_VOICE_REQUESTS_PER_MINUTE < MAX_REQUESTS_PER_MINUTE := by
  have hrun := runCalls_all_fresh u ts rl0
    (by rw [hwin]; exact hpair)
    (by intro a _ x hx; rw [hempty] at hx; cases hx)
    (by rw [hempty, hmax]; simp [hlen])
  have hSreq : (runCalls rl0 u ts).2.requests u = ts := by
    rw [hrun.2.1, hempty]; rfl
  have hSmax : (runCalls rl0 u ts).2.max_requests = MAX_VOICE_REQUESTS_PER_MINUTE := by
    rw [hrun.2.2.2.1, hmax]
  have hSwin : (runCalls rl0 u ts).2.window_seconds = RATE_LIMIT_WINDOW_SECONDS := by
    rw [hrun.2.2.2.2, hwin]
  have hfilter2 : ((runCalls rl0 u ts).2.requests u).filter
      (fun x => t2 - (runCalls rl0 u ts).2.window_seconds < x) = ts := by
    rw [hSreq, hSwin]
    apply List.filter_eq_self.mpr
    intro x hx
    simpa using hfresh2 x hx
  have hdeny : (is_allowed (runCalls rl0 u ts).2 u t2).1 = false := by
    apply is_allowed_denies
    rw [hfilter2, hSmax, hlen]
  have hDreq : (is_allowed (runCalls rl0 u ts).2 u t2).2.requests u = ts := by
    rw [is_allowed_requests_self, hfilter2, if_pos (by rw [hSmax, hlen])]
  have hDmax := is_allowed_max (runCalls rl0 u ts).2 u t2
  have hDwin := is_allowed_window (runCalls rl0 u ts).2 u t2
  refine ⟨hrun.1, hdeny, ?_, hrun.2.2.1, ?_, by decide⟩
  · apply is_allowed_admits
    rw [hDreq, hDwin, hSwin, hDmax, hSmax]
    have : ts.filter (fun x => t3 - RATE_LIMIT_WINDOW_SECONDS < x) = [] := by
      apply List.filter_eq_nil_iff.mpr
      intro x hx
      simpa using not_lt.mpr (hafter x hx)
    rw [this]
    decide
  · intro ac now
    exact ⟨rfl, rfl⟩

/-- Concrete run of `rate_limiter_sliding_window`: five voice requests at seconds
0,10,20,30,40 are all admitted, a sixth at second 50 is denied, and a request at
second 100 — a full window past every stamp — is admitted again. -/
theorem rate_limiter_sliding_window_witness :
    (runCalls ⟨5, 60, fun _ => []⟩ 1 [0, 10, 20, 30, 40]).1 =
      [true, true, true, true, true] ∧
    (is_allowed (runCalls ⟨5, 60, fun _ => []⟩ 1 [0, 10, 20, 30, 40]).2 1 50).1 = false ∧
    (is_allowed (is_allowed (runCalls ⟨5, 60, fun _ => []⟩ 1 [0, 10, 20, 30, 40]).2
      1 50).2 1 100).1 = true := by
  have h := rate_limiter_sliding_window 1 [0, 10, 20, 30, 40] 50 100
    ⟨5, 60, fun _ => []⟩ rfl rfl rfl (by decide)
    (by decide) (by decide) (by decide)
  exact ⟨h.1, h.2.1, h.2.2.1⟩

/-- `MAX_RETRIES = 3` in `auto_enrich_contact_job` (REFACTORING_PLAN.md 1170-1205). -/
def MAX_RETRIES : Nat := 3

/-- Per-attempt outcome of `osint_service.enrich_contact`: the returned dict's
`status` field, `"error"` on a failed whole operation. -/
inductive EnrichOutcome where
  | success
  | error
deriving DecidableEq, Repr

/-- One scheduled retry of the enrichment job: the new `retry_count` argument and
the `DateTrigger` delay `2 ** retry_count` minutes. -/
structure ScheduledRetry where
  retry_count : Nat
  delay_minutes : Nat
deriving DecidableEq, Repr

/-- Observable trace of a chain of `auto_enrich_contact_job` invocations: the
retries that were scheduled, how many attempts failed, whether the final
`logger.error` line for the exhausted chain was written, and the contact table
after the chain. -/
structure JobRun where
  retries : List ScheduledRetry
  failures : Nat
  logged_permanent : Bool
  contacts : List Contact
deriving DecidableEq, Repr

/-- The retry chain of `auto_enrich_contact_job` (REFACTORING_PLAN.md 1170-1205),
with `outcome n` the status of the attempt invoked with `retry_count = n`.  On
`"error"` with `retry_count < MAX_RETRIES` the job schedules itself with
`retry_count + 1` after `2 ** retry_count` minutes (1, 2, 4); on `"error"` with
the retries exhausted it writes the `logger.error` line and stops.  No failure
path writes to the contact table (the record updates of a successful enrichment
are outside this model). -/
def auto_enrich_contact_job (outcome : Nat → EnrichOutcome) (contacts : List Contact)
    (retry_count : Nat) : JobRun :=
  match outcome retry_count with
  | .success => ⟨[], 0, false, contacts⟩
  | .error =>
    if h : retry_count < MAX_RETRIES then
      let rest := auto_enrich_contact_job outcome contacts (retry_count + 1)
      ⟨⟨retry_count + 1, 2 ^ retry_count⟩ :: rest.retries, rest.failures + 1,
        rest.logged_permanent, rest.contacts⟩
    else ⟨[], 1, true, contacts⟩
termination_by MAX_RETRIES + 1 - retry_count
decreasing_by omega

/-- C4 counterexample: with every attempt failing, the chain started at
`retry_count = 0` schedules a retry after each of the first three failures — in
particular a retry (delay 4) is still scheduled after the 3rd consecutive failure
— needs 4 consecutive failures in total before it stops, and never writes any
`failed` status: the contact table is exactly as before. -/
theorem enrich_retry_claim_counterexample :
    (auto_enrich_contact_job (fun _ => .error) [{ id := 5, user_id := 1 }] 0).failures = 4 ∧
    (auto_enrich_contact_job (fun _ => .error) [{ id := 5, user_id := 1 }] 0).retries =
      [⟨1, 1⟩, ⟨2, 2⟩, ⟨3, 4⟩] ∧
    (auto_enrich_contact_job (fun _ => .error) [{ id := 5, user_id := 1 }] 0).contacts =
      [{ id := 5, user_id := 1 }] ∧
    ({ id := 5, user_id := 1 : Contact }).status = ContactStatus.active := by
  refine ⟨?_, ?_, ?_, rfl⟩ <;>
    simp [auto_enrich_contact_job, MAX_RETRIES]

/-- C4 (amended): a failing enrichment chain schedules retries with exponential
backoff doubling each attempt — delays 1, 2, 4 minutes — capped at MAX_RETRIES = 3
retries; the chain stops after the failure of the attempt with
`retry_count = MAX_RETRIES` (the 4th consecutive failure), logging the permanent
failure, scheduling nothing further, and writing no status to the contact table. -/
theorem enrich_retry_backoff (contacts : List Contact) :
    auto_enrich_contact_job (fun _ => .error) contacts 0 =
      ⟨[⟨1, 1⟩, ⟨2, 2⟩, ⟨3, 4⟩], 4, true, contacts⟩ ∧
    (∀ rc, MAX_RETRIES ≤ rc →
      auto_enrich_contact_job (fun _ => .error) contacts rc = ⟨[], 1, true, contacts⟩) := by
  constructor
  · simp [auto_enrich_contact_job, MAX_RETRIES]
  · intro rc hrc
    have hnot : ¬ rc < MAX_RETRIES := not_lt.mpr hrc
    rw [auto_enrich_contact_job]
    simp [hnot]

/-- Concrete run of `enrich_retry_backoff` on a one-contact table, with the
exhausted case instantiated at `retry_count = 3`. -/
theorem enrich_retry_backoff_witness :
    auto_enrich_contact_job (fun _ => .error) [{ id := 5, user_id := 1 }] 0 =
      ⟨[⟨1, 1⟩, ⟨2, 2⟩, ⟨3, 4⟩], 4, true, [{ id := 5, user_id := 1 }]⟩ ∧
    auto_enrich_contact_job (fun _ => .error) [{ id := 5, user_id := 1 }] 3 =
      ⟨[], 1, true, [{ id := 5, user_id := 1 }]⟩ := by
  have h := enrich_retry_backoff [{ id := 5, user_id := 1 }]
  exact ⟨h.1, h.2 3 (by decide)⟩

/-- C5 counterexample: the chain that exhausts its retries ends with only the
`logger.error` line — the persistent contact table is exactly the input table, so
nothing queryable records the permanent failure. -/
theorem permanent_failure_not_persisted_counterexample :
    (auto_enrich_contact_job (fun _ => .error)
        [{ id := 9, user_id := 2, name := some "Ann" }] 0).logged_permanent = true ∧
    (auto_enrich_contact_job (fun _ => .error)
        [{ id := 9, user_id := 2, name := some "Ann" }] 0).contacts =
      [{ id := 9, user_id := 2, name := some "Ann" }] := by
  constructor <;> simp [auto_enrich_contact_job, MAX_RETRIES]

/-- C5 (amended): every permanently failing enrichment chain, from any starting
`retry_count`, sets only the log flag and leaves the persistent contact table
unchanged — the permanent failure is logged and discarded, not recorded in
queryable state. -/
theorem permanent_failure_only_logged (contacts : List Contact) (rc : Nat) :
    (auto_enrich_contact_job (fun _ => .error) contacts rc).logged_permanent = true ∧
    (auto_enrich_contact_job (fun _ => .error) contacts rc).contacts = contacts := by
  rcases rc with _ | _ | _ | rc
  · constructor <;> simp [auto_enrich_contact_job, MAX_RETRIES]
  · constructor <;> simp [auto_enrich_contact_job, MAX_RETRIES]
  · constructor <;> simp [auto_enrich_contact_job, MAX_RETRIES]
  · have hge : ¬ (rc + 3 < MAX_RETRIES) := by simp [MAX_RETRIES]
    rw [auto_enrich_contact_job]
    simp [dif_neg hge]

/-- Status of a reminder task.  The requirements document's enum is
`('pending','sent','snoozed','completed','cancelled')`; the spec's data model
additionally has the terminal `failed` state for exhausted delivery retries. -/
inductive ReminderStatus where
  | pending
  | sent
  | snoozed
  | completed
  | cancelled
  | failed
deriving DecidableEq, Repr

/-- A reminder task row: `reminders(contact_id, trigger_at, message_template,
status, ...)` plus the spec's `attemptCount`. -/
structure ReminderTask where
  id : Nat
  contact_id : Nat
  trigger_at : Int
  message_template : Option String := none
  status : ReminderStatus := .pending
  attempt_count : Nat := 0
deriving DecidableEq, Repr

/-- `ReminderCreate.validate_future_date` (ARCHITECTURE_REFACTORING.md 1760-1772):
`if v <= datetime.now(): raise ValueError("Reminder must be in the future")`. -/
def validate_future_date (v now : Int) : Except String Int :=
  if v ≤ now then .error "Reminder must be in the future" else .ok v

/-- Modelled from the spec: `schedule(contactId, triggerAt, template) -> taskId`.
The reminder service body is absent from the repository; per the spec it
validates through `validate_future_date` (which is in the repository) and on
success persists a fresh pending task, returning its id.  The rejection is
synchronous: on error nothing is appended and nothing is retried. -/
def schedule_reminder (tasks : List ReminderTask) (next_id contact_id : Nat)
    (trigger_at : Int) (template : Option String) (now : Int) :
    Except String (Nat × List ReminderTask) :=
  match validate_future_date trigger_at now with
  | .error e => .error e
  | .ok t => .ok (next_id, tasks ++ [⟨next_id, contact_id, t, template, .pending, 0⟩])

/-- C8: `schedule` fails with the validation error exactly when the trigger time is
not strictly in the future — rejected synchronously, with no task persisted — and
otherwise returns the fresh task id with the pending task appended. -/
theorem schedule_rejects_past_triggers (tasks : List ReminderTask)
    (next_id contact_id : Nat) (trigger_at : Int) (template : Option String)
    (now : Int) :
    (schedule_reminder tasks next_id contact_id trigger_at template now =
        .error "Reminder must be in the future" ↔ trigger_at ≤ now) ∧
    (now < trigger_at →
      schedule_reminder tasks next_id contact_id trigger_at template now =
        .ok (next_id, tasks ++ [⟨next_id, contact_id, trigger_at, template, .pending, 0⟩])) := by
  constructor
  · constructor
    · intro h
      by_contra hnot
      simp [schedule_reminder, validate_future_date, if_neg hnot] at h
    · intro h
      simp [schedule_reminder, validate_future_date, if_pos h]
  · intro h
    simp [schedule_reminder, validate_future_date, if_neg (not_le.mpr h)]

/-- Concrete runs of `schedule_rejects_past_triggers`: a trigger 50 units in the
past is rejected, one 50 units ahead is accepted as task 4. -/
theorem schedule_rejects_past_triggers_witness :
    schedule_reminder [] 4 2 50 none 100 = .error "Reminder must be in the future" ∧
    schedule_reminder [] 4 2 150 none 100 =
      .ok (4, [⟨4, 2, 150, none, .pending, 0⟩]) := by
  have h1 := (schedule_rejects_past_triggers [] 4 2 50 none 100).1.mpr (by decide)
  have h2 := (schedule_rejects_past_triggers [] 4 2 150 none 100).2 (by decide)
  exact ⟨h1, h2⟩

def ReminderStatus.isTerminal : ReminderStatus → Bool
  | .completed | .cancelled | .failed => true
  | _ => false

/-- Modelled from the spec: `deliver(taskId)` — on success of a pending task the
status goes to sent; on failure the same bounded retry policy as enrichment,
after which the status goes to failed; non-pending tasks are not delivered. -/
def deliver (t : ReminderTask) (ok : Bool) : ReminderTask :=
  if t.status = .pending then
    if ok then { t with status := .sent }
    else if MAX_RETRIES ≤ t.attempt_count + 1 then
      { t with status := .failed, attempt_count := t.attempt_count + 1 }
    else { t with attempt_count := t.attempt_count + 1 }
  else t

/-- Modelled from the spec: `snooze(taskId, newTime)` requires a future time and
resets the status to pending with the new trigger; valid from any non-terminal
state — the requirements document offers the snooze action on a reminder that
has just been delivered (a sent task). -/
def snooze (t : ReminderTask) (new_time now : Int) : Except String ReminderTask :=
  if new_time ≤ now then .error "Snooze time must be in the future"
  else if t.status.isTerminal then .error "Task is terminal"
  else .ok { t with status := .pending, trigger_at := new_time }

/-- Modelled from the spec: `complete(taskId)` is terminal; valid from any
non-terminal state — the requirements document completes a delivered reminder. -/
def complete_task (t : ReminderTask) : Except String ReminderTask :=
  if t.status.isTerminal then .error "Task is terminal"
  else .ok { t with status := .completed }

/-- Modelled from the spec: `cancel(taskId)` is valid from any non-terminal state. -/
def cancel_task (t : ReminderTask) : Except String ReminderTask :=
  if t.status.isTerminal then .error "Task is terminal"
  else .ok { t with status := .cancelled }

/-- The reminder operations of the claim. -/
inductive ReminderOp where
  | deliverOp (ok : Bool)
  | snoozeOp (new_time now : Int)
  | completeOp
  | cancelOp
deriving DecidableEq, Repr

/-- Apply one operation to a task; a validation error leaves the task unchanged. -/
def applyOp (t : ReminderTask) : ReminderOp → ReminderTask
  | .deliverOp ok => deliver t ok
  | .snoozeOp nt now => match snooze t nt now with | .ok t2 => t2 | .error _ => t
  | .completeOp => match complete_task t with | .ok t2 => t2 | .error _ => t
  | .cancelOp => match cancel_task t with | .ok t2 => t2 | .error _ => t

/-- The transition set asserted by the claim:
pending→sent|snoozed|completed|cancelled|failed and snoozed→pending only. -/
def claimedTransition : ReminderStatus → ReminderStatus → Bool
  | .pending, .sent => true
  | .pending, .snoozed => true
  | .pending, .completed => true
  | .pending, .cancelled => true
  | .pending, .failed => true
  | .snoozed, .pending => true
  | _, _ => false

/-- The transition set the operations actually take: the claimed set extended by
the operations valid on the non-terminal sent and snoozed states (snooze,
complete, cancel after delivery — per the requirements document's snooze and
complete scenarios on a delivered reminder). -/
def amendedTransition : ReminderStatus → ReminderStatus → Bool
  | .pending, .sent => true
  | .pending, .snoozed => true
  | .pending, .completed => true
  | .pending, .cancelled => true
  | .pending, .failed => true
  | .snoozed, .pending => true
  | .snoozed, .completed => true
  | .snoozed, .cancelled => true
  | .sent, .pending => true
  | .sent, .completed => true
  | .sent, .cancelled => true
  | _, _ => false

/-- C9 counterexample: delivering a pending reminder makes it sent, and snoozing
that sent reminder to a future time succeeds and resets it to pending — an actual
status change along sent→pending, a transition outside the claimed set. -/
theorem reminder_transition_counterexample :
    (deliver ⟨1, 1, 10, none, .pending, 0⟩ true).status = .sent ∧
    (applyOp (deliver ⟨1, 1, 10, none, .pending, 0⟩ true) (.snoozeOp 100 20)).status =
      .pending ∧
    applyOp (deliver ⟨1, 1, 10, none, .pending, 0⟩ true) (.snoozeOp 100 20) ≠
      deliver ⟨1, 1, 10, none, .pending, 0⟩ true ∧
    claimedTransition .sent .pending = false := by
  decide

/-- C9 (amended): every reminder status is one of pending, sent, snoozed,
completed, cancelled, failed, and every operation either leaves the status
unchanged or moves it along pending→sent|snoozed|completed|cancelled|failed,
snoozed→pending|completed|cancelled, or sent→pending|completed|cancelled
(snooze, complete and cancel being valid on delivered reminders); terminal states
have no outgoing transition. -/
theorem reminder_transitions_monotonic (t : ReminderTask) (op : ReminderOp) :
    (applyOp t op).status = t.status ∨
    amendedTransition t.status (applyOp t op).status = true := by
  cases op with
  | deliverOp ok =>
    by_cases hp : t.status = .pending
    · cases ok
      · by_cases hc : MAX_RETRIES ≤ t.attempt_count + 1
        · right; simp [applyOp, deliver, hp, hc, amendedTransition]
        · left; simp [applyOp, deliver, hp, hc]
      · right; simp [applyOp, deliver, hp, amendedTransition]
    · left; simp [applyOp, deliver, hp]
  | snoozeOp nt now =>
    by_cases hfut : nt ≤ now
    · left; simp [applyOp, snooze, hfut]
    · by_cases hterm : t.status.isTerminal = true
      · left; simp [applyOp, snooze, hfut, hterm]
      · cases hs : t.status
        · left; simp [applyOp, snooze, hfut, hs, ReminderStatus.isTerminal]
        · right; simp [applyOp, snooze, hfut, hs, ReminderStatus.isTerminal,
            amendedTransition]
        · right; simp [applyOp, snooze, hfut, hs, ReminderStatus.isTerminal,
            amendedTransition]
        · exact absurd (by simp [hs, ReminderStatus.isTerminal]) hterm
        · exact absurd (by simp [hs, ReminderStatus.isTerminal]) hterm
        · exact absurd (by simp [hs, ReminderStatus.isTerminal]) hterm
  | completeOp =>
    by_cases hterm : t.status.isTerminal = true
    · left; simp [applyOp, complete_task, hterm]
    · right
      cases hs : t.status <;>
        simp [applyOp, complete_task, hs, ReminderStatus.isTerminal,
          amendedTransition] <;>
        simp [hs, ReminderStatus.isTerminal] at hterm
  | cancelOp =>
    by_cases hterm : t.status.isTerminal = true
    · left; simp [applyOp, cancel_task, hterm]
    · right
      cases hs : t.status <;>
        simp [applyOp, cancel_task, hs, ReminderStatus.isTerminal,
          amendedTransition] <;>
        simp [hs, ReminderStatus.isTerminal] at hterm

/-- Concrete runs of `reminder_transitions_monotonic`: delivery of a pending task
and cancellation of a snoozed task both move along the amended transition set. -/
theorem reminder_transitions_monotonic_witness :
    ((applyOp ⟨1, 1, 10, none, .pending, 0⟩ (.deliverOp true)).status =
        (⟨1, 1, 10, none, .pending, 0⟩ : ReminderTask).status ∨
      amendedTransition (⟨1, 1, 10, none, .pending, 0⟩ : ReminderTask).status
        (applyOp ⟨1, 1, 10, none, .pending, 0⟩ (.deliverOp true)).status = true) ∧
    ((applyOp ⟨2, 1, 10, none, .snoozed, 0⟩ .cancelOp).status =
        (⟨2, 1, 10, none, .snoozed, 0⟩ : ReminderTask).status ∨
      amendedTransition (⟨2, 1, 10, none, .snoozed, 0⟩ : ReminderTask).status
        (applyOp ⟨2, 1, 10, none, .snoozed, 0⟩ .cancelOp).status = true) :=
  ⟨reminder_transitions_monotonic ⟨1, 1, 10, none, .pending, 0⟩ (.deliverOp true),
   reminder_transitions_monotonic ⟨2, 1, 10, none, .snoozed, 0⟩ .cancelOp⟩

/-- Process state: the persisted reminder store plus volatile in-process timer
handles, which a restart wipes. -/
structure ProcessState where
  tasks : List ReminderTask
  timers : List Nat
deriving DecidableEq, Repr

/-- A process restart: the persisted store survives, every in-process timer is lost. -/
def restart (ps : ProcessState) : ProcessState :=
  ⟨ps.tasks, []⟩

/-- Modelled from the spec: the periodic dispatcher tick
(`tasks.reminders.send_due_reminders`, Celery beat every minute,
ARCHITECTURE_REFACTORING.md 371-383) recomputes the due tasks directly from the
persisted trigger times: the pending tasks whose `trigger_at` has passed.  Its
body is absent from the repository; only the task registration and schedule are. -/
def send_due_reminders (tasks : List ReminderTask) (now : Int) : List ReminderTask :=
  tasks.filter (fun t => t.status == ReminderStatus.pending && t.trigger_at ≤ now)

/-- One dispatcher tick reads only the persisted store, never the volatile timers. -/
def dispatch_tick (ps : ProcessState) (now : Int) : List ReminderTask :=
  send_due_reminders ps.tasks now

/-- C10: the dispatcher tick selects exactly the persisted pending tasks whose
trigger time has passed, and it computes from persisted state only: after a
restart (which loses every in-process timer) the very same due tasks are
dispatched. -/
theorem dispatcher_survives_restart (ps : ProcessState) (now : Int) :
    (∀ t, t ∈ dispatch_tick ps now ↔
      (t ∈ ps.tasks ∧ t.status = .pending ∧ t.trigger_at ≤ now)) ∧
    dispatch_tick (restart ps) now = dispatch_tick ps now ∧
    (restart ps).timers = [] := by
  refine ⟨?_, rfl, rfl⟩
  intro t
  simp [dispatch_tick, send_due_reminders, List.mem_filter, and_assoc]

/-- Concrete run of `dispatcher_survives_restart`: a pending reminder due in the
past is dispatched after a restart that dropped its timer. -/
theorem dispatcher_survives_restart_witness :
    (⟨1, 1, 50, none, .pending, 0⟩ : ReminderTask) ∈
      dispatch_tick (restart ⟨[⟨1, 1, 50, none, .pending, 0⟩], [42]⟩) 100 := by
  have h := dispatcher_survives_restart (restart ⟨[⟨1, 1, 50, none, .pending, 0⟩], [42]⟩) 100
  exact (h.1 ⟨1, 1, 50, none, .pending, 0⟩).mpr ⟨by decide, rfl, by decide⟩

end NetworkBot
